import Mathlib

/-
Verification of the screenshotter repository's request-safety and
orchestration layer against its natural-language specification.

Shallow embedding: JavaScript strings are modelled as `List Char`
(the built-in `String` operations do not reduce in the kernel), numbers
as `Nat`/`Int`, promise-based control flow as explicit state passing,
and thrown errors as `Except`.  Sources embedded here:
  - src/security.js           (validateUrl, validateRedirect,
                               checkRateLimit, Semaphore)
  - src/unnamed/part_001      (the POST /api/screenshot handler's
                               option parsing)
  - src/unnamed/part_002      (browser lifecycle and capture)
-/

set_option maxHeartbeats 1000000

namespace Screenshotter

/-- Decidable equality for `Except`, so concrete runs of the fallible
operations can be checked by `decide`. -/
instance {ε α : Type} [DecidableEq ε] [DecidableEq α] : DecidableEq (Except ε α)
  | .ok a, .ok b =>
    if h : a = b then .isTrue (by rw [h]) else .isFalse (by simp [h])
  | .error a, .error b =>
    if h : a = b then .isTrue (by rw [h]) else .isFalse (by simp [h])
  | .ok _, .error _ => .isFalse (by simp)
  | .error _, .ok _ => .isFalse (by simp)

/-- JavaScript strings are modelled as lists of characters. -/
abbrev JStr := List Char

/-- s.startsWith(p) on the character-list model. -/
def leadsWith : JStr → JStr → Bool
  | [], _ => true
  | _ :: _, [] => false
  | p :: ps, s :: ss => p = s && leadsWith ps ss

/-- s.split(c) for a one-character separator, as JavaScript String.split
behaves: splitting the empty string yields one empty piece, and a
trailing separator yields a trailing empty piece. -/
def splitOnChar (c : Char) : JStr → List JStr
  | [] => [[]]
  | x :: xs =>
    let r := splitOnChar c xs
    if x = c then [] :: r
    else
      match r with
      | h :: t => (x :: h) :: t
      | [] => [[x]]

/-- s.toLowerCase() on the character-list model. -/
def jsToLower (s : JStr) : JStr := s.map Char.toLower

/-- parseInt(s, 10) as it behaves on the octet-like strings this code
feeds it: the longest leading run of decimal digits, and `none` when
there is no leading digit (JavaScript's NaN, which makes every numeric
comparison false). -/
def jsParseIntLead (s : JStr) : Option Nat :=
  let ds := s.takeWhile Char.isDigit
  if ds.isEmpty then none
  else some (ds.foldl (fun n c => n * 10 + (c.toNat - 48)) 0)

/-- hostname.replace of one leading open bracket and one trailing close
bracket (the regex anchored at both ends in validateUrl,
src/security.js line 89). -/
def stripBrackets (s : JStr) : JStr :=
  let s1 := if leadsWith ['['] s then s.drop 1 else s
  if leadsWith [']'] s1.reverse then s1.dropLast else s1

/-- Worker for jsSetDedup: keep the first occurrence of each element,
remembering what has been kept so far. -/
def jsSetDedupAux (seen : List JStr) : List JStr → List JStr
  | [] => []
  | a :: rest =>
    if a ∈ seen then jsSetDedupAux seen rest
    else a :: jsSetDedupAux (a :: seen) rest

/-- Order-preserving deduplication: the effect of `[...new Set(xs)]`
in validateUrl (src/security.js line 85). -/
def jsSetDedup (l : List JStr) : List JStr := jsSetDedupAux [] l

/-- The second-octet test of the 172.16.0.0/12 branch of isBlockedIPv4
(src/security.js lines 21-24): parseInt(ip.split('.')[1], 10) landing
in 16..31. -/
def octet172InRange (ip : JStr) : Bool :=
  match jsParseIntLead ((splitOnChar '.' ip).getD 1 []) with
  | some n => decide (16 ≤ n ∧ n ≤ 31)
  | none => false

/-- isBlockedIPv4 from src/security.js lines 15-28, translated check by
check in source order. -/
def isBlockedIPv4 (ip : JStr) : Bool :=
  if ip = "0.0.0.0".toList ∨ ip = "169.254.169.254".toList then true
  else if leadsWith "127.".toList ip then true
  else if leadsWith "10.".toList ip then true
  else if leadsWith "192.168.".toList ip then true
  else if leadsWith "172.".toList ip ∧ octet172InRange ip = true then true
  else if leadsWith "169.254.".toList ip then true
  else false

/-- isBlockedIPv6 from src/security.js lines 30-43: lowercase, then the
textual checks ::1, the "fc"/"fd" and "fe80" leading-substring tests,
and the ::ffff: IPv4-mapped form deferring to isBlockedIPv4. -/
def isBlockedIPv6 (ip : JStr) : Bool :=
  let n := jsToLower ip
  if n = "::1".toList then true
  else if leadsWith "fc".toList n ∨ leadsWith "fd".toList n then true
  else if leadsWith "fe80".toList n then true
  else if leadsWith "::ffff:".toList n ∧ isBlockedIPv4 (n.drop 7) = true then true
  else false

/-- isBlockedIP from src/security.js lines 45-47. -/
def isBlockedIP (ip : JStr) : Bool :=
  if ip.any (fun c => c = ':') then isBlockedIPv6 ip else isBlockedIPv4 ip

/-- The error classes of the validator, named as in the specification's
taxonomy (src/security.js raises them as Error messages). -/
inductive VError
  | invalidURL
  | schemeNotAllowed
  | privateNetworkBlocked
deriving DecidableEq

/-- The fields of the WHATWG-parsed URL that validateUrl reads.  URL
parsing itself is outside the embedded code; validateUrl receives
either a parse failure or the parsed fields. -/
structure ParsedUrl where
  protocol : JStr
  hostname : JStr
  href : JStr
deriving DecidableEq

/-- The success value of validateUrl: `{ url: parsed.href, hostname }`. -/
structure ValidatedTarget where
  url : JStr
  hostname : JStr
deriving DecidableEq

/-- The outcome of the three resolution calls awaited with
Promise.allSettled in validateUrl: `none` models a rejected promise,
`some l` a fulfilled one with address list `l` (for dns.lookup, the
`.address` projection of its records). -/
structure ResolveEnv where
  v4 : Option (List JStr)
  v6 : Option (List JStr)
  lookup : Option (List JStr)
deriving DecidableEq

/-- The union of the fulfilled resolution results, in the order
validateUrl pushes them (src/security.js lines 70-79). -/
def gatheredAddresses (env : ResolveEnv) : List JStr :=
  env.v4.getD [] ++ env.v6.getD [] ++ env.lookup.getD []

/-- validateUrl from src/security.js lines 52-102.  `input` is `none`
when `new URL(input)` throws.  Note that when the deduplicated address
list is empty the hostname itself is checked against the blocklist as
if it were a bare IP literal, and the function succeeds when that check
passes; no resolution-failure error exists on this path. -/
def validateUrl : Option ParsedUrl → ResolveEnv → Except VError ValidatedTarget
  | none, _ => .error .invalidURL
  | some parsed, env =>
    if ¬(parsed.protocol = "http:".toList ∨ parsed.protocol = "https:".toList) then
      .error .schemeNotAllowed
    else
      if (jsSetDedup (gatheredAddresses env)).isEmpty then
        if isBlockedIP (stripBrackets parsed.hostname) then .error .privateNetworkBlocked
        else .ok ⟨parsed.href, parsed.hostname⟩
      else if (jsSetDedup (gatheredAddresses env)).any isBlockedIP then .error .privateNetworkBlocked
      else .ok ⟨parsed.href, parsed.hostname⟩

/-- validateRedirect from src/security.js lines 108-115: try
validateUrl, true on success, false on any thrown error. -/
def validateRedirect (input : Option ParsedUrl) (env : ResolveEnv) : Bool :=
  match validateUrl input env with
  | .ok _ => true
  | .error _ => false

/-! ### Specification-level blocked-address set

The specification (§4.1) words the blocked set in CIDR terms.  The
following definitions follow those words — not the source — so that the
source's string checks can be compared against them.  IPv4 addresses
are four octets, IPv6 addresses eight 16-bit groups. -/

/-- Hex digit value, for the specification-level IPv6 parser. -/
def hexVal (c : Char) : Option Nat :=
  if c.isDigit then some (c.toNat - 48)
  else if 'a' ≤ c ∧ c ≤ 'f' then some (c.toNat - 87)
  else if 'A' ≤ c ∧ c ≤ 'F' then some (c.toNat - 55)
  else none

/-- One IPv6 group: one to four hex digits. -/
def parseHexGroup (s : JStr) : Option Nat :=
  if s.isEmpty ∨ 4 < s.length then none
  else s.foldl (fun acc c => do
    let a ← acc
    let v ← hexVal c
    pure (a * 16 + v)) (some 0)

/-- Split a character list at the first occurrence of a double colon. -/
def splitFirstDC : JStr → Option (JStr × JStr)
  | ':' :: ':' :: rest => some ([], rest)
  | c :: rest => (splitFirstDC rest).map (fun p => (c :: p.1, p.2))
  | [] => none

/-- All groups of a colon-separated list. -/
def parseGroupList (parts : List JStr) : Option (List Nat) :=
  parts.mapM parseHexGroup

/-- Textual IPv6 address as eight 16-bit groups, handling at most one
double-colon compression.  Used only on the specification side, to
state which numeric address a textual input denotes. -/
def parseIPv6 (s : JStr) : Option (List Nat) :=
  match splitFirstDC s with
  | none => do
    let gs ← parseGroupList (splitOnChar ':' s)
    if gs.length = 8 then some gs else none
  | some (l, r) =>
    if (splitFirstDC r).isSome then none
    else do
      let lg ← parseGroupList (if l.isEmpty then [] else splitOnChar ':' l)
      let rg ← parseGroupList (if r.isEmpty then [] else splitOnChar ':' r)
      if lg.length + rg.length ≤ 7 then
        some (lg ++ List.replicate (8 - lg.length - rg.length) 0 ++ rg)
      else none

/-- One decimal octet, 0-255. -/
def parseDecOctet (s : JStr) : Option Nat :=
  if s.isEmpty ∨ 3 < s.length ∨ ¬s.all Char.isDigit then none
  else
    let v := s.foldl (fun n c => n * 10 + (c.toNat - 48)) 0
    if v ≤ 255 then some v else none

/-- Textual dotted-quad IPv4 address, specification side. -/
def parseIPv4 (s : JStr) : Option (Nat × Nat × Nat × Nat) :=
  match (splitOnChar '.' s).mapM parseDecOctet with
  | some [a, b, c, d] => some (a, b, c, d)
  | _ => none

/-- The specification's blocked set for IPv4 (§4.1): loopback 127.0.0.0/8,
the all-zeros address, 10.0.0.0/8, 172.16.0.0/12, 192.168.0.0/16,
link-local 169.254.0.0/16, and the metadata address 169.254.169.254. -/
def specBlockedV4 (a b c d : Nat) : Bool :=
  decide (a = 127 ∨ (a = 0 ∧ b = 0 ∧ c = 0 ∧ d = 0) ∨ a = 10 ∨
    (a = 172 ∧ 16 ≤ b ∧ b ≤ 31) ∨ (a = 192 ∧ b = 168) ∨
    (a = 169 ∧ b = 254) ∨ (a = 169 ∧ b = 254 ∧ c = 169 ∧ d = 254))

/-- The specification's blocked set for IPv6 (§4.1): ::1, the all-zeros
address, unique-local fc00::/7 (first 7 bits), link-local fe80::/10
(first 10 bits), and IPv4-mapped ::ffff:a.b.c.d with a blocked embedded
IPv4.  Input is the eight 16-bit groups. -/
def specBlockedV6 (g : List Nat) : Bool :=
  decide (g = [0, 0, 0, 0, 0, 0, 0, 1] ∨ g = [0, 0, 0, 0, 0, 0, 0, 0]) ||
  (match g.head? with
   | some g0 => decide (g0 / 512 = 126 ∨ g0 / 64 = 1018)
   | none => false) ||
  (match g with
   | [0, 0, 0, 0, 0, ff, hi, lo] =>
     decide (ff = 65535) && specBlockedV4 (hi / 256) (hi % 256) (lo / 256) (lo % 256)
   | _ => false)

/-- Specification-side classification of a textual address: `some b`
when the text denotes an IP address with blocked-status `b`, `none`
when it is not an IP address at all. -/
def specBlockedIP (s : JStr) : Option Bool :=
  match parseIPv4 s with
  | some (a, b, c, d) => some (specBlockedV4 a b c d)
  | none =>
    match parseIPv6 s with
    | some g => some (specBlockedV6 g)
    | none => none

/-! ### Rate limiter (src/security.js lines 134-151) -/

/-- checkRateLimit for one identifier.  The state is `none` when the map
has no entry and `some (count, resetAt)` otherwise; the result is the
returned `(allowed, retryAfter)` pair together with the entry stored
back.  `Math.ceil((resetAt - now) / 1000)` is `(resetAt - now + 999) / 1000`
in the natural numbers (the denied branch implies `now ≤ resetAt`, and
on the reset path `resetAt = now + 60000`, so the difference is never
negative). -/
def rlStep (now : Nat) (st : Option (Nat × Nat)) : (Bool × Nat) × (Nat × Nat) :=
  let e : Nat × Nat :=
    match st with
    | none => (0, now + 60000)
    | some (c, r) => if now > r then (0, now + 60000) else (c, r)
  let e2 : Nat × Nat := (e.1 + 1, e.2)
  if e2.1 > 5 then ((false, (e2.2 - now + 999) / 1000), e2)
  else ((true, 0), e2)

/-- A sequence of checkRateLimit calls for one identifier, returning the
final stored entry. -/
def rlSeq (ts : List Nat) (st : Option (Nat × Nat)) : Option (Nat × Nat) :=
  ts.foldl (fun s t => some (rlStep t s).2) st

/-! ### Semaphore (src/security.js lines 155-189)

The event loop runs each of `acquire`, `release`, and a timer callback
atomically, so the class is modelled as a state machine.  Queued
waiters carry an identifier; `granted` records waiters woken by
`release` and `timedOut` waiters whose timer fired while they were
still queued (a timer of a granted waiter has been cleared and never
fires).  An `acquire` reusing an identifier already seen is a no-op:
each JavaScript acquire call creates a fresh entry object. -/

structure SemState where
  maxCount : Nat
  current : Int
  queue : List Nat
  granted : List Nat
  timedOut : List Nat
deriving DecidableEq

def initSem (m : Nat) : SemState := ⟨m, 0, [], [], []⟩

inductive SemOp
  | acquire (id : Nat)
  | timerFire (id : Nat)
  | release
deriving DecidableEq

/-- One atomic event of the Semaphore, from src/security.js:
acquire grants immediately when `current < max` and enqueues otherwise;
a firing timer removes its still-queued entry and rejects; release
wakes the oldest waiter when one is queued (leaving `current` alone)
and otherwise decrements `current`, floored at zero. -/
def semStep (s : SemState) : SemOp → SemState
  | .acquire id =>
    if id ∈ s.queue ∨ id ∈ s.granted ∨ id ∈ s.timedOut then s
    else if s.current < (s.maxCount : Int) then { s with current := s.current + 1 }
    else { s with queue := s.queue ++ [id] }
  | .timerFire id =>
    if id ∈ s.queue then
      { s with queue := s.queue.erase id, timedOut := s.timedOut ++ [id] }
    else s
  | .release =>
    match s.queue with
    | hd :: rest => { s with queue := rest, granted := s.granted ++ [hd] }
    | [] => { s with current := max 0 (s.current - 1) }

def runSem (m : Nat) (ops : List SemOp) : SemState :=
  ops.foldl semStep (initSem m)

/-- The safety invariant of the Semaphore state. -/
def SemInv (s : SemState) : Prop :=
  0 ≤ s.current ∧ s.current ≤ (s.maxCount : Int) ∧
  s.queue.Nodup ∧
  (∀ id ∈ s.queue, id ∉ s.granted ∧ id ∉ s.timedOut) ∧
  (∀ id : Nat, ¬(id ∈ s.granted ∧ id ∈ s.timedOut))

/-! ### Renderer lifecycle (src/unnamed/part_002 lines 10-50) -/

structure BrowserState where
  hasInstance : Bool
  connected : Bool
  screenshotCount : Nat
  launchTime : Int
deriving DecidableEq

def RESTART_INTERVAL : Nat := 100

def RESTART_TIME : Int := 3600000

/-- launchBrowser: fresh connected instance, counter reset to zero,
launch time set to now. -/
def launchBrowser (now : Int) : BrowserState := ⟨true, true, 0, now⟩

/-- The restart condition of getBrowser (src/unnamed/part_002
lines 31-34). -/
def needsRestart (s : BrowserState) (now : Int) : Bool :=
  !s.hasInstance || !s.connected ||
  decide (RESTART_INTERVAL ≤ s.screenshotCount) ||
  decide (now - s.launchTime > RESTART_TIME)

/-- getBrowser: relaunch when the restart condition holds; the Bool
records whether a restart happened. -/
def getBrowser (s : BrowserState) (now : Int) : BrowserState × Bool :=
  if needsRestart s now then (launchBrowser now, true) else (s, false)

/-! ### Capture (src/unnamed/part_002 lines 54-233) -/

/-- The options object passed to capture; absent fields take the
defaults destructured at src/unnamed/part_002 lines 55-64. -/
structure CaptureOpts where
  viewport : Option (Int × Int) := none
  deviceScaleFactor : Option Int := none
  fullPage : Option Bool := none
  waitTime : Option Int := none
  darkMode : Option Bool := none
  customCss : Option JStr := none
  waitForSelector : Option JStr := none
deriving DecidableEq

/-- What the page reports during one capture run: the first height
measurement, the re-measured height after the fixed/sticky rewrite,
the byte size of the produced screenshot, and whether the awaited
selector appeared in time. -/
structure PageEnv where
  pageHeight : Int
  finalHeight : Int
  bufferSize : Nat
  selectorFound : Bool
deriving DecidableEq

def MAX_HEIGHT : Int := 15000

def MAX_OUTPUT_SIZE : Nat := 52428800

def viewportOf (o : CaptureOpts) : Int × Int := o.viewport.getD (1440, 900)

/-- dpr = Math.min(4, Math.max(1, deviceScaleFactor)) with default 2. -/
def dprOf (o : CaptureOpts) : Int := min 4 (max 1 (o.deviceScaleFactor.getD 2))

def fullPageOf (o : CaptureOpts) : Bool := o.fullPage.getD true

/-- The fixed wait the capture sleeps before the screenshot
(src/unnamed/part_002 lines 133-136): default 1000, applied when
positive, capped at 10000. -/
def captureFixedWait (o : CaptureOpts) : Int :=
  let w := o.waitTime.getD 1000
  if w > 0 then min w 10000 else 0

/-- `truncated` as set at src/unnamed/part_002 lines 152-158. -/
def truncatedOf (o : CaptureOpts) (e : PageEnv) : Bool :=
  fullPageOf o && decide (e.pageHeight > MAX_HEIGHT)

/-- The capture height as computed through lines 152-207: initial value
from the first measurement (clamped to MAX_HEIGHT when full-page and
over it), then replaced by the post-rewrite re-measurement on the tall
full-page branch, min-ed with MAX_HEIGHT when truncating. -/
def captureHeightOf (o : CaptureOpts) (e : PageEnv) : Int :=
  let vp := viewportOf o
  let h1 : Int :=
    if fullPageOf o then
      (if e.pageHeight > MAX_HEIGHT then MAX_HEIGHT else e.pageHeight)
    else vp.2
  if fullPageOf o = true ∧ h1 > vp.2 then
    (if truncatedOf o e then min e.finalHeight MAX_HEIGHT else e.finalHeight)
  else h1

/-- selectorTimedOut: a requested (nonempty) selector that did not
appear within its deadline (src/unnamed/part_002 lines 106-113). -/
def selectorTimedOutOf (o : CaptureOpts) (e : PageEnv) : Bool :=
  decide (o.waitForSelector.getD [] ≠ ([] : JStr)) && !e.selectorFound

structure CaptureResult where
  width : Int
  height : Int
  truncated : Bool
  selectorTimedOut : Bool
deriving DecidableEq

inductive CaptureError
  | tooLarge (width height : Int)
deriving DecidableEq

/-- The result computation of capture (src/unnamed/part_002 lines
213-228): the TOO_LARGE error carrying the would-be scaled dimensions
when the buffer exceeds 50 MB, the scaled result otherwise. -/
def captureCore (o : CaptureOpts) (e : PageEnv) : Except CaptureError CaptureResult :=
  let vp := viewportOf o
  let dpr := dprOf o
  let ch := captureHeightOf o e
  if e.bufferSize > MAX_OUTPUT_SIZE then
    .error (.tooLarge (vp.1 * dpr) (ch * dpr))
  else
    .ok ⟨vp.1 * dpr, ch * dpr, truncatedOf o e, selectorTimedOutOf o e⟩

/-- One capture call including the browser obtained via getBrowser:
`screenshotCount++` runs only after the size check passes, so the
counter moves by one exactly on success (relative to the state the
obtain step produced). -/
def captureRun (o : CaptureOpts) (e : PageEnv) (bs : BrowserState) (now : Int) :
    Except CaptureError CaptureResult × BrowserState :=
  let b1 := (getBrowser bs now).1
  match captureCore o e with
  | .ok r => (.ok r, { b1 with screenshotCount := b1.screenshotCount + 1 })
  | .error err => (.error err, b1)

/-! ### Request-body validation (src/unnamed/part_001 lines 56-86) -/

/-- The optional fields of the POST /api/screenshot body, after the
parseInt coercions the handler applies (a present non-numeric value
behaves as an absent field, since every comparison with NaN is false
and the field is then never copied into opts). -/
structure ReqBody where
  viewport : Option (Int × Int) := none
  deviceScaleFactor : Option Int := none
  fullPage : Option Bool := none
  darkMode : Option Bool := none
  waitTime : Option Int := none
  customCss : Option JStr := none
  waitForSelector : Option JStr := none
deriving DecidableEq

/-- The handler's option parsing: each optional field is copied into
opts only when its range check passes, and dropped otherwise — it is
never clamped here. -/
def buildOpts (b : ReqBody) : CaptureOpts where
  viewport :=
    match b.viewport with
    | some (w, h) => if 0 < w ∧ w ≤ 3840 ∧ 0 < h ∧ h ≤ 2160 then some (w, h) else none
    | none => none
  deviceScaleFactor :=
    match b.deviceScaleFactor with
    | some s => if 1 ≤ s ∧ s ≤ 4 then some s else none
    | none => none
  fullPage := b.fullPage
  darkMode := b.darkMode
  waitTime :=
    match b.waitTime with
    | some w => if 0 ≤ w ∧ w ≤ 10000 then some w else none
    | none => none
  customCss :=
    match b.customCss with
    | some c => if c.length ≤ 10000 then some c else none
    | none => none
  waitForSelector :=
    match b.waitForSelector with
    | some c => if c.length ≤ 500 then some c else none
    | none => none

/-- The effective scale factor a request ends up with after the handler
and the capture defaults: the whole pipeline of part_001 into
part_002. -/
def pipelineDpr (b : ReqBody) : Int := dprOf (buildOpts b)

/-! ## Helper lemmas -/

theorem mem_jsSetDedupAux (x : JStr) :
    ∀ (l seen : List JStr), x ∈ jsSetDedupAux seen l ↔ x ∈ l ∧ x ∉ seen := by
  intro l
  induction l with
  | nil => intro seen; simp [jsSetDedupAux]
  | cons a rest ih =>
    intro seen
    by_cases ha : a ∈ seen
    · rw [jsSetDedupAux, if_pos ha, ih]
      constructor
      · rintro ⟨h1, h2⟩; exact ⟨List.mem_cons_of_mem _ h1, h2⟩
      · rintro ⟨h1, h2⟩
        rcases List.mem_cons.mp h1 with h | h
        · exact absurd (h ▸ ha) h2
        · exact ⟨h, h2⟩
    · rw [jsSetDedupAux, if_neg ha]
      by_cases hxa : x = a
      · subst hxa
        simp [List.mem_cons, ha]
      · simp [List.mem_cons, hxa, ih]

theorem mem_jsSetDedup (x : JStr) (l : List JStr) : x ∈ jsSetDedup l ↔ x ∈ l := by
  simp [jsSetDedup, mem_jsSetDedupAux]

theorem jsSetDedup_eq_nil (l : List JStr) : jsSetDedup l = [] ↔ l = [] := by
  cases l with
  | nil => simp [jsSetDedup, jsSetDedupAux]
  | cons a rest => simp [jsSetDedup, jsSetDedupAux]

theorem any_jsSetDedup (f : JStr → Bool) (l : List JStr) :
    (jsSetDedup l).any f = l.any f := by
  have h : ((jsSetDedup l).any f = true) ↔ (l.any f = true) := by
    simp only [List.any_eq_true, mem_jsSetDedup]
  cases h1 : (jsSetDedup l).any f <;> cases h2 : l.any f <;> simp_all

/-! ## Claim C1 -/

/-- Claim C1 (counterexample): the claim says that when the hostname is
not a bare IP literal and resolution yields no addresses, validateUrl
fails with InvalidURL.  At the concrete hostname "nonexistent.example"
— not an IPv4 or IPv6 literal — with every resolution path rejected,
validateUrl instead succeeds. -/
theorem C1_counterexample :
    parseIPv4 "nonexistent.example".toList = none ∧
    parseIPv6 "nonexistent.example".toList = none ∧
    validateUrl
        (some ⟨"http:".toList, "nonexistent.example".toList,
          "http://nonexistent.example/".toList⟩)
        ⟨none, none, none⟩ =
      .ok ⟨"http://nonexistent.example/".toList, "nonexistent.example".toList⟩ :=
  ⟨by decide, by decide, by decide⟩

/-- Claim C1 (amended): when DNS resolution yields no addresses at all,
validateUrl does not propagate any resolution failure; it checks the
bracket-stripped hostname itself against the blocklist as if it were a
bare IP literal, fails with PrivateNetworkBlocked when that check
flags it, and succeeds otherwise — also for hostnames that are not IP
literals. -/
theorem C1_amended_empty_resolution :
    ∀ (p : ParsedUrl) (env : ResolveEnv),
      (p.protocol = "http:".toList ∨ p.protocol = "https:".toList) →
      gatheredAddresses env = [] →
      validateUrl (some p) env =
        (if isBlockedIP (stripBrackets p.hostname) then .error .privateNetworkBlocked
         else .ok ⟨p.href, p.hostname⟩) := by
  intro p env hp he
  simp only [validateUrl]
  rw [if_neg (not_not_intro hp), he]
  rfl

/-- Witness for C1_amended_empty_resolution at a concrete input. -/
theorem C1_witness :
    validateUrl
        (some ⟨"http:".toList, "example.com".toList, "http://example.com/".toList⟩)
        ⟨some [], some [], some []⟩ =
      .ok ⟨"http://example.com/".toList, "example.com".toList⟩ := by
  have h := C1_amended_empty_resolution
    ⟨"http:".toList, "example.com".toList, "http://example.com/".toList⟩
    ⟨some [], some [], some []⟩ (Or.inl rfl) (by decide)
  rw [h]
  decide

/-! ## Claim C2 -/

/-- Claim C2 (counterexample): the claim defines the blocked set in CIDR
terms.  The address fe81::1 lies in link-local fe80::/10 — the
specification-level predicate classifies it blocked — yet the code's
textual check misses it and validateUrl succeeds on a hostname
resolving to it.  Conversely fc0::1 lies outside every blocked range —
the specification-level predicate classifies it not blocked — yet the
code's "fc" leading-substring check flags it and validateUrl fails, so
the claim's "exactly when" is false in both directions. -/
theorem C2_counterexample :
    (specBlockedIP "fe81::1".toList = some true ∧
     isBlockedIP "fe81::1".toList = false ∧
     validateUrl (some ⟨"http:".toList, "h.example".toList, "http://h.example/".toList⟩)
         ⟨none, some ["fe81::1".toList], none⟩ =
       .ok ⟨"http://h.example/".toList, "h.example".toList⟩) ∧
    (specBlockedIP "fc0::1".toList = some false ∧
     validateUrl (some ⟨"http:".toList, "h2.example".toList, "http://h2.example/".toList⟩)
         ⟨none, some ["fc0::1".toList], none⟩ =
       .error .privateNetworkBlocked) :=
  ⟨⟨by decide, by decide, by decide⟩, ⟨by decide, by decide⟩⟩

/-- Claim C2 (amended): validateUrl fails with PrivateNetworkBlocked
exactly when (the scheme being allowed) at least one gathered resolved
address is flagged by the code's textual blocklist isBlockedIP — or,
when no address was gathered, the bracket-stripped hostname itself is —
where the textual IPv6 checks are ::1, leading "fc"/"fd", leading
"fe80", and ::ffff:-mapped IPv4, rather than the specification's CIDR
ranges.  A single flagged answer vetoes the whole hostname even when
non-flagged answers are present. -/
theorem C2_amended_blocked_iff :
    (∀ (p : ParsedUrl) (env : ResolveEnv),
        validateUrl (some p) env = .error .privateNetworkBlocked ↔
          ((p.protocol = "http:".toList ∨ p.protocol = "https:".toList) ∧
           (if gatheredAddresses env = [] then
              isBlockedIP (stripBrackets p.hostname) = true
            else (gatheredAddresses env).any isBlockedIP = true)))
    ∧ (∀ (p : ParsedUrl) (env : ResolveEnv) (a : JStr),
        (p.protocol = "http:".toList ∨ p.protocol = "https:".toList) →
        a ∈ gatheredAddresses env → isBlockedIP a = true →
        validateUrl (some p) env = .error .privateNetworkBlocked) := by
  constructor
  · intro p env
    simp only [validateUrl]
    by_cases hp : p.protocol = "http:".toList ∨ p.protocol = "https:".toList
    · rw [if_neg (not_not_intro hp)]
      by_cases he : gatheredAddresses env = []
      · have hemp : (jsSetDedup (gatheredAddresses env)).isEmpty = true := by
          rw [List.isEmpty_iff, jsSetDedup_eq_nil]
          exact he
        rw [if_pos hemp, if_pos he]
        by_cases hb : isBlockedIP (stripBrackets p.hostname) = true
        · rw [if_pos hb]
          exact ⟨fun _ => ⟨hp, hb⟩, fun _ => rfl⟩
        · rw [if_neg hb]
          constructor
          · intro hcontra
            exact absurd hcontra (by simp)
          · rintro ⟨-, h2⟩
            exact absurd h2 hb
      · have hemp : ¬(jsSetDedup (gatheredAddresses env)).isEmpty = true := by
          rw [List.isEmpty_iff, jsSetDedup_eq_nil]
          exact he
        rw [if_neg hemp, if_neg he]
        by_cases hb : (gatheredAddresses env).any isBlockedIP = true
        · rw [if_pos (by rw [any_jsSetDedup]; exact hb)]
          exact ⟨fun _ => ⟨hp, hb⟩, fun _ => rfl⟩
        · rw [if_neg (by rw [any_jsSetDedup]; exact hb)]
          constructor
          · intro hcontra
            exact absurd hcontra (by simp)
          · rintro ⟨-, h2⟩
            exact absurd h2 hb
    · rw [if_pos hp]
      constructor
      · intro hcontra
        exact absurd hcontra (by simp)
      · rintro ⟨h1, -⟩
        exact absurd h1 hp
  · intro p env a hp ha hba
    have hne : gatheredAddresses env ≠ [] := List.ne_nil_of_mem ha
    simp only [validateUrl]
    rw [if_neg (not_not_intro hp)]
    have hne2 : ¬(jsSetDedup (gatheredAddresses env)).isEmpty = true := by
      simp only [List.isEmpty_iff, jsSetDedup_eq_nil]
      exact hne
    rw [if_neg hne2]
    have hany : (jsSetDedup (gatheredAddresses env)).any isBlockedIP = true := by
      rw [any_jsSetDedup]
      exact List.any_eq_true.mpr ⟨a, ha, hba⟩
    rw [if_pos hany]

/-- Witness for C2_amended_blocked_iff: a hostname resolving to a public
address and a private one is vetoed by the private answer. -/
theorem C2_witness :
    validateUrl
        (some ⟨"http:".toList, "multi.example".toList, "http://multi.example/".toList⟩)
        ⟨some ["93.184.216.34".toList, "10.0.0.5".toList], none, none⟩ =
      .error .privateNetworkBlocked :=
  C2_amended_blocked_iff.2 _ _ "10.0.0.5".toList (Or.inl rfl) (by decide) (by decide)

/-! ## Claim C9 -/

/-- Claim C9: validateRedirect runs the identical validation as
validateUrl and reduces the outcome to a boolean: it returns true
exactly when validateUrl succeeds and false exactly when validateUrl
fails — it is a total function and signals failure by its value rather
than by throwing. -/
theorem C9_validateRedirect :
    ∀ (input : Option ParsedUrl) (env : ResolveEnv),
      (validateRedirect input env = true ↔ (validateUrl input env).isOk = true) ∧
      (validateRedirect input env = false ↔ (validateUrl input env).isOk = false) := by
  intro input env
  unfold validateRedirect
  cases validateUrl input env <;> simp [Except.isOk, Except.toBool]

/-! ## Claim C3 -/

theorem semStep_maxCount (s : SemState) (op : SemOp) :
    (semStep s op).maxCount = s.maxCount := by
  cases op with
  | acquire id =>
    simp only [semStep]
    split_ifs <;> rfl
  | timerFire id =>
    simp only [semStep]
    split_ifs <;> rfl
  | release =>
    rcases hq : s.queue with _ | ⟨hd, rest⟩ <;> simp only [semStep, hq]

theorem semStep_inv (s : SemState) (op : SemOp) (h : SemInv s) : SemInv (semStep s op) := by
  obtain ⟨h0, h1, h2, h3, h4⟩ := h
  cases op with
  | acquire id =>
    by_cases hid : id ∈ s.queue ∨ id ∈ s.granted ∨ id ∈ s.timedOut
    · simp only [semStep]
      rw [if_pos hid]
      exact ⟨h0, h1, h2, h3, h4⟩
    · simp only [semStep]
      rw [if_neg hid]
      push_neg at hid
      obtain ⟨hquf, hgf, htf⟩ := hid
      by_cases hc : s.current < (s.maxCount : Int)
      · rw [if_pos hc]
        refine ⟨?_, ?_, h2, h3, h4⟩
        · show 0 ≤ s.current + 1
          omega
        · show s.current + 1 ≤ (s.maxCount : Int)
          omega
      · rw [if_neg hc]
        refine ⟨h0, h1, ?_, ?_, h4⟩
        · simp [List.nodup_append, h2, hquf]
        · intro x hx
          rcases List.mem_append.mp hx with hx | hx
          · exact h3 x hx
          · rcases List.mem_singleton.mp hx with rfl
            exact ⟨hgf, htf⟩
  | timerFire id =>
    by_cases hid : id ∈ s.queue
    · simp only [semStep]
      rw [if_pos hid]
      refine ⟨h0, h1, h2.erase id, ?_, ?_⟩
      · intro x hx
        have hx2 : x ∈ s.queue := List.mem_of_mem_erase hx
        have hxid : x ≠ id := ((h2.mem_erase_iff).mp hx).1
        refine ⟨(h3 x hx2).1, ?_⟩
        intro hmem
        rcases List.mem_append.mp hmem with hm | hm
        · exact (h3 x hx2).2 hm
        · exact hxid (List.mem_singleton.mp hm)
      · rintro x ⟨hxg, hxt⟩
        rcases List.mem_append.mp hxt with hm | hm
        · exact h4 x ⟨hxg, hm⟩
        · rcases List.mem_singleton.mp hm with rfl
          exact (h3 x hid).1 hxg
    · simp only [semStep]
      rw [if_neg hid]
      exact ⟨h0, h1, h2, h3, h4⟩
  | release =>
    rcases hq : s.queue with _ | ⟨hd, rest⟩
    · simp only [semStep, hq]
      refine ⟨le_max_left 0 _, ?_, List.nodup_nil, ?_, h4⟩
      · show (max 0 (s.current - 1) : Int) ≤ (s.maxCount : Int)
        rcases max_choice 0 (s.current - 1) with hm | hm <;> rw [hm] <;> omega
      · intro x hx
        simp at hx
    · simp only [semStep, hq]
      have hcons : (hd :: rest).Nodup := hq ▸ h2
      refine ⟨h0, h1, (List.nodup_cons.mp hcons).2, ?_, ?_⟩
      · intro x hx
        have hx2 : x ∈ s.queue := by
          rw [hq]
          exact List.mem_cons_of_mem _ hx
        refine ⟨?_, (h3 x hx2).2⟩
        intro hmem
        rcases List.mem_append.mp hmem with hm | hm
        · exact (h3 x hx2).1 hm
        · have hxhd : x = hd := List.mem_singleton.mp hm
          exact (List.nodup_cons.mp hcons).1 (hxhd ▸ hx)
      · rintro x ⟨hxg, hxt⟩
        rcases List.mem_append.mp hxg with hm | hm
        · exact h4 x ⟨hm, hxt⟩
        · have hxhd : x = hd := List.mem_singleton.mp hm
          have hhd : hd ∈ s.queue := by
            rw [hq]
            exact List.mem_cons_self _ _
          exact (h3 hd hhd).2 (hxhd ▸ hxt)

theorem foldl_semStep_inv (ops : List SemOp) :
    ∀ s : SemState, SemInv s → SemInv (ops.foldl semStep s) := by
  induction ops with
  | nil => exact fun s h => h
  | cons op rest ih =>
    intro s h
    exact ih _ (semStep_inv s op h)

theorem foldl_semStep_maxCount (ops : List SemOp) :
    ∀ s : SemState, (ops.foldl semStep s).maxCount = s.maxCount := by
  induction ops with
  | nil => intro s; rfl
  | cons op rest ih =>
    intro s
    rw [List.foldl_cons, ih, semStep_maxCount]

theorem initSem_inv (m : Nat) : SemInv (initSem m) := by
  refine ⟨le_refl 0, by simp [initSem], List.nodup_nil, ?_, ?_⟩
  · intro id hid
    simp [initSem] at hid
  · rintro id ⟨hg, -⟩
    simp [initSem] at hg

/-- Claim C3: over every sequence of Semaphore events, the counter
`current` stays within 0..max — it never exceeds max and never goes
negative; a release while waiters are queued hands the slot to the
oldest waiter (head of the FIFO queue) without changing `current`; and
no waiter is ever both granted a slot and failed with the queue
timeout. -/
theorem C3_semaphore_invariants :
    (∀ (m : Nat) (ops : List SemOp),
        0 ≤ (runSem m ops).current ∧ (runSem m ops).current ≤ (m : Int) ∧
        ∀ id : Nat, ¬(id ∈ (runSem m ops).granted ∧ id ∈ (runSem m ops).timedOut))
    ∧ (∀ (s : SemState) (hd : Nat) (rest : List Nat), s.queue = hd :: rest →
        (semStep s .release).current = s.current ∧
        (semStep s .release).granted = s.granted ++ [hd] ∧
        (semStep s .release).queue = rest) := by
  constructor
  · intro m ops
    have hinv : SemInv (runSem m ops) := foldl_semStep_inv ops (initSem m) (initSem_inv m)
    have hmax : (runSem m ops).maxCount = m := foldl_semStep_maxCount ops (initSem m)
    obtain ⟨h0, h1, -, -, h4⟩ := hinv
    rw [hmax] at h1
    exact ⟨h0, h1, h4⟩
  · intro s hd rest hq
    simp [semStep, hq]

/-- Witness for C3_semaphore_invariants at a concrete state: with two
queued waiters, a release grants the oldest one and leaves the counter
untouched. -/
theorem C3_witness :
    (semStep ⟨5, 3, [7, 9], [], []⟩ .release).current = 3 ∧
    (semStep ⟨5, 3, [7, 9], [], []⟩ .release).granted = [7] ∧
    (semStep ⟨5, 3, [7, 9], [], []⟩ .release).queue = [9] := by
  have h := C3_semaphore_invariants.2 ⟨5, 3, [7, 9], [], []⟩ 7 [9] rfl
  exact ⟨h.1, by simpa using h.2.1, h.2.2⟩

/-! ## Claim C4 -/

theorem rlStep_none_eq (now : Nat) :
    rlStep now none = ((true, 0), (1, now + 60000)) := rfl

theorem rlStep_reset (now c r : Nat) (h : r < now) :
    rlStep now (some (c, r)) = ((true, 0), (1, now + 60000)) := by
  simp only [rlStep]
  rw [if_pos (by omega : now > r)]
  norm_num

theorem rlStep_within (now c r : Nat) (h : now ≤ r) :
    rlStep now (some (c, r)) =
      (if c + 1 > 5 then (false, (r - now + 999) / 1000) else (true, 0), (c + 1, r)) := by
  simp only [rlStep]
  rw [if_neg (by omega : ¬now > r)]
  split_ifs <;> rfl

theorem rlSeq_cons (t : Nat) (ts : List Nat) (st : Option (Nat × Nat)) :
    rlSeq (t :: ts) st = rlSeq ts (some (rlStep t st).2) := rfl

theorem rl_sixth_denied (t0 t1 t2 t3 t4 t5 : Nat)
    (h01 : t0 ≤ t1) (h12 : t1 ≤ t2) (h23 : t2 ≤ t3) (h34 : t3 ≤ t4) (h45 : t4 ≤ t5)
    (hw : t5 < t0 + 60000) :
    rlStep t5 (rlSeq [t0, t1, t2, t3, t4] none) =
      ((false, (t0 + 60000 - t5 + 999) / 1000), (6, t0 + 60000)) ∧
    1 ≤ (t0 + 60000 - t5 + 999) / 1000 ∧ (t0 + 60000 - t5 + 999) / 1000 ≤ 60 := by
  have e1 : rlSeq [t0, t1, t2, t3, t4] none = rlSeq [t1, t2, t3, t4] (some (1, t0 + 60000)) := by
    rw [rlSeq_cons, rlStep_none_eq]
  have e2 : rlSeq [t1, t2, t3, t4] (some (1, t0 + 60000)) =
      rlSeq [t2, t3, t4] (some (2, t0 + 60000)) := by
    rw [rlSeq_cons, rlStep_within t1 1 (t0 + 60000) (by omega)]
  have e3 : rlSeq [t2, t3, t4] (some (2, t0 + 60000)) =
      rlSeq [t3, t4] (some (3, t0 + 60000)) := by
    rw [rlSeq_cons, rlStep_within t2 2 (t0 + 60000) (by omega)]
  have e4 : rlSeq [t3, t4] (some (3, t0 + 60000)) = rlSeq [t4] (some (4, t0 + 60000)) := by
    rw [rlSeq_cons, rlStep_within t3 3 (t0 + 60000) (by omega)]
  have e5 : rlSeq [t4] (some (4, t0 + 60000)) = some (5, t0 + 60000) := by
    rw [rlSeq_cons, rlStep_within t4 4 (t0 + 60000) (by omega)]
    rfl
  rw [e1, e2, e3, e4, e5, rlStep_within t5 5 (t0 + 60000) (by omega),
    if_pos (by omega : 5 + 1 > 5)]
  refine ⟨rfl, by omega, by omega⟩

/-- Claim C4: for the 60-second window with limit 5, the first call for
an identifier (or the first after the window has expired) stores
count = 1 with expiry now + 60000 and is allowed; a call within the
window increments the stored count; a call within the window with the
count already at 5 or more is denied with
retryAfter = ceil((expiry - now) / 1000); and for six calls with
nondecreasing times inside one window, the sixth is denied with that
retryAfter, a value between 1 and 60. -/
theorem C4_rate_limit :
    (∀ now : Nat, rlStep now none = ((true, 0), (1, now + 60000)))
    ∧ (∀ now c r : Nat, r < now → rlStep now (some (c, r)) = ((true, 0), (1, now + 60000)))
    ∧ (∀ now c r : Nat, now ≤ r → (rlStep now (some (c, r))).2 = (c + 1, r))
    ∧ (∀ now c r : Nat, now ≤ r → 5 ≤ c →
        rlStep now (some (c, r)) = ((false, (r - now + 999) / 1000), (c + 1, r)))
    ∧ (∀ t0 t1 t2 t3 t4 t5 : Nat, t0 ≤ t1 → t1 ≤ t2 → t2 ≤ t3 → t3 ≤ t4 → t4 ≤ t5 →
        t5 < t0 + 60000 →
        rlStep t5 (rlSeq [t0, t1, t2, t3, t4] none) =
          ((false, (t0 + 60000 - t5 + 999) / 1000), (6, t0 + 60000)) ∧
        1 ≤ (t0 + 60000 - t5 + 999) / 1000 ∧ (t0 + 60000 - t5 + 999) / 1000 ≤ 60) := by
  refine ⟨rlStep_none_eq, rlStep_reset, ?_, ?_, rl_sixth_denied⟩
  · intro now c r h
    rw [rlStep_within now c r h]
  · intro now c r h hc
    rw [rlStep_within now c r h, if_pos (by omega : c + 1 > 5)]

/-- Witness for C4_rate_limit: five calls at times 0..40 and a sixth at
59000 ms, denied with retryAfter 1. -/
theorem C4_witness :
    rlStep 59000 (rlSeq [0, 10, 20, 30, 40] none) = ((false, 1), (6, 60000)) := by
  have h := (C4_rate_limit.2.2.2.2 0 10 20 30 40 59000 (by decide) (by decide)
    (by decide) (by decide) (by decide) (by decide)).1
  rw [h]

/-! ## Claims C5 and C6 -/

theorem dprOf_bounds (o : CaptureOpts) : 1 ≤ dprOf o ∧ dprOf o ≤ 4 :=
  ⟨le_min (by norm_num) (le_max_left 1 _), min_le_left 4 _⟩

theorem captureHeightOf_le_max (o : CaptureOpts) (e : PageEnv)
    (hfp : fullPageOf o = true) (hgt : MAX_HEIGHT < e.pageHeight) :
    captureHeightOf o e ≤ MAX_HEIGHT := by
  have htr : truncatedOf o e = true := by
    simp [truncatedOf, hfp, hgt]
  simp only [captureHeightOf, hfp, htr, if_pos hgt, if_true]
  split_ifs
  · exact min_le_right _ _
  · exact le_refl _

theorem captureCore_ok (o : CaptureOpts) (e : PageEnv) (r : CaptureResult)
    (hok : captureCore o e = .ok r) :
    r = ⟨(viewportOf o).1 * dprOf o, captureHeightOf o e * dprOf o,
      truncatedOf o e, selectorTimedOutOf o e⟩ := by
  simp only [captureCore] at hok
  by_cases hbuf : e.bufferSize > MAX_OUTPUT_SIZE
  · rw [if_pos hbuf] at hok
    exact absurd hok (by simp)
  · rw [if_neg hbuf] at hok
    exact (Except.ok.inj hok).symm

/-- Claim C5: for every full-page capture that returns a result, a
measured document height over the 15000-pixel cap yields
truncated = true and a reported height of at most 15000 times the
effective scale factor, while a measured height at or under the cap
yields truncated = false with the reported height being the capture
height times the scale factor. -/
theorem C5_truncation :
    ∀ (o : CaptureOpts) (e : PageEnv) (r : CaptureResult),
      fullPageOf o = true →
      captureCore o e = .ok r →
      ((MAX_HEIGHT < e.pageHeight →
          r.truncated = true ∧ r.height ≤ MAX_HEIGHT * dprOf o)
       ∧ (e.pageHeight ≤ MAX_HEIGHT →
          r.truncated = false ∧ r.height = captureHeightOf o e * dprOf o)) := by
  intro o e r hfp hok
  have hr := captureCore_ok o e r hok
  subst hr
  constructor
  · intro hgt
    refine ⟨by simp [truncatedOf, hfp, hgt], ?_⟩
    show captureHeightOf o e * dprOf o ≤ MAX_HEIGHT * dprOf o
    exact mul_le_mul_of_nonneg_right (captureHeightOf_le_max o e hfp hgt)
      (le_trans zero_le_one (dprOf_bounds o).1)
  · intro hle
    have hngt : ¬(MAX_HEIGHT < e.pageHeight) := not_lt.mpr hle
    exact ⟨by simp [truncatedOf, hngt], rfl⟩

/-- Witness for C5_truncation: defaults, measured height 20000. -/
theorem C5_witness :
    (⟨2880, 30000, true, false⟩ : CaptureResult).truncated = true ∧
    (⟨2880, 30000, true, false⟩ : CaptureResult).height ≤ MAX_HEIGHT * dprOf { } :=
  (C5_truncation { } ⟨20000, 20000, 100, true⟩ ⟨2880, 30000, true, false⟩
    (by decide) (by decide)).1 (by decide)

/-- Claim C6: a produced image over 50 MB makes the capture fail with
the TOO_LARGE error reporting the would-be scaled dimensions instead
of returning image data, and leaves the per-instance counter at the
value the obtain step produced; the counter moves up by exactly one
only when the capture returns a result. -/
theorem C6_output_too_large :
    ∀ (o : CaptureOpts) (e : PageEnv) (bs : BrowserState) (now : Int),
      (MAX_OUTPUT_SIZE < e.bufferSize →
        captureRun o e bs now =
          (.error (.tooLarge ((viewportOf o).1 * dprOf o) (captureHeightOf o e * dprOf o)),
           (getBrowser bs now).1))
      ∧ (∀ r : CaptureResult, captureCore o e = .ok r →
          (captureRun o e bs now).2.screenshotCount =
            (getBrowser bs now).1.screenshotCount + 1) := by
  intro o e bs now
  constructor
  · intro hbuf
    have hc : captureCore o e =
        .error (.tooLarge ((viewportOf o).1 * dprOf o) (captureHeightOf o e * dprOf o)) := by
      simp only [captureCore]
      rw [if_pos hbuf]
    simp only [captureRun, hc]
  · intro r hr
    simp only [captureRun, hr]

/-- Witness for C6_output_too_large: a 52428801-byte buffer fails with
the scaled dimensions and the counter stays at 3. -/
theorem C6_witness :
    captureRun { } ⟨20000, 20000, 52428801, true⟩ ⟨true, true, 3, 0⟩ 5 =
      (.error (.tooLarge 2880 30000), ⟨true, true, 3, 0⟩) := by
  have h := (C6_output_too_large { } ⟨20000, 20000, 52428801, true⟩
    ⟨true, true, 3, 0⟩ 5).1 (by decide)
  rw [h]
  decide

/-! ## Claim C7 -/

/-- Claim C7 (counterexample): the claim says a requested
deviceScaleFactor of 10 results in an effective scale factor of 4 and a
requested 0 or negative value in 1.  Through the actual pipeline the
handler drops any out-of-range value, capture falls back to its
default 2, and the effective scale factor is 2 in all three cases. -/
theorem C7_counterexample :
    pipelineDpr { deviceScaleFactor := some 10 } = 2 ∧
    pipelineDpr { deviceScaleFactor := some 0 } = 2 ∧
    pipelineDpr { deviceScaleFactor := some (-3) } = 2 ∧
    (2 : Int) ≠ 4 ∧ (2 : Int) ≠ 1 :=
  ⟨by decide, by decide, by decide, by decide, by decide⟩

/-- Claim C7 (amended): the handler copies deviceScaleFactor into the
capture options only when it already lies in 1..4 and drops it
otherwise — it clamps nothing — so a request with 10, 0 or any
out-of-range value runs the capture at the default effective scale
factor 2; the clamp min(4, max(1, ·)) lives inside capture itself,
which therefore always uses an effective scale factor between 1
and 4. -/
theorem C7_amended_scale_clamp :
    (∀ (b : ReqBody) (s : Int), b.deviceScaleFactor = some s → (s < 1 ∨ 4 < s) →
        (buildOpts b).deviceScaleFactor = none ∧ pipelineDpr b = 2)
    ∧ (∀ o : CaptureOpts, 1 ≤ dprOf o ∧ dprOf o ≤ 4) := by
  constructor
  · intro b s hb hs
    have h1 : (buildOpts b).deviceScaleFactor = none := by
      simp only [buildOpts, hb]
      rw [if_neg (by omega)]
    refine ⟨h1, ?_⟩
    simp only [pipelineDpr, dprOf, h1, Option.getD]
    decide
  · exact dprOf_bounds

/-- Witness for C7_amended_scale_clamp at the requested value 10. -/
theorem C7_witness :
    (buildOpts { deviceScaleFactor := some 10 }).deviceScaleFactor = none ∧
    pipelineDpr { deviceScaleFactor := some 10 } = 2 :=
  C7_amended_scale_clamp.1 { deviceScaleFactor := some 10 } 10 rfl (by decide)

/-! ## Claim C8 -/

/-- Claim C8: getBrowser restarts exactly when no instance exists, the
instance is disconnected, the per-instance counter has reached 100, or
the instance is older than one hour; a restart hands back a fresh
connected instance with the counter reset to 0 and the launch time set
to now, and when no restart is needed the existing instance is
returned unchanged. -/
theorem C8_restart_policy :
    (∀ (s : BrowserState) (now : Int),
        (getBrowser s now).2 = true ↔
          (s.hasInstance = false ∨ s.connected = false ∨
           RESTART_INTERVAL ≤ s.screenshotCount ∨ RESTART_TIME < now - s.launchTime))
    ∧ (∀ (s : BrowserState) (now : Int), RESTART_INTERVAL ≤ s.screenshotCount →
        getBrowser s now = (⟨true, true, 0, now⟩, true))
    ∧ (∀ (s : BrowserState) (now : Int), (getBrowser s now).2 = false →
        (getBrowser s now).1 = s) := by
  have hsnd : ∀ (s : BrowserState) (now : Int), (getBrowser s now).2 = needsRestart s now := by
    intro s now
    simp only [getBrowser]
    split_ifs with h
    · exact h.symm
    · simp only [Bool.not_eq_true] at h
      exact h.symm
  refine ⟨?_, ?_, ?_⟩
  · intro s now
    rw [hsnd]
    simp only [needsRestart, Bool.or_eq_true, Bool.not_eq_true', decide_eq_true_eq]
    tauto
  · intro s now h
    have hn : needsRestart s now = true := by
      simp [needsRestart, decide_eq_true_eq, h]
    simp [getBrowser, hn, launchBrowser]
  · intro s now h
    by_cases hn : needsRestart s now = true
    · simp only [getBrowser, if_pos hn] at h
      exact absurd h (by simp)
    · simp only [getBrowser, if_neg hn]

/-- Witness for C8_restart_policy: the 101st obtain after 100 captures
relaunches, resetting the counter and the launch time. -/
theorem C8_witness :
    getBrowser ⟨true, true, 100, 0⟩ 5 = (⟨true, true, 0, 5⟩, true) :=
  C8_restart_policy.2.1 ⟨true, true, 100, 0⟩ 5 (by decide)

/-! ## Claim C10 -/

/-- Claim C10: a request that omits waitTime — or supplies one outside
0..10000, which the handler drops — reaches capture with no waitTime
field, and capture then applies its hidden default fixed wait of
1000 ms before the screenshot. -/
theorem C10_default_wait :
    (∀ o : CaptureOpts, o.waitTime = none → captureFixedWait o = 1000)
    ∧ (∀ b : ReqBody, b.waitTime = none → captureFixedWait (buildOpts b) = 1000)
    ∧ (∀ (b : ReqBody) (w : Int), b.waitTime = some w → (w < 0 ∨ 10000 < w) →
        captureFixedWait (buildOpts b) = 1000) := by
  have base : ∀ o : CaptureOpts, o.waitTime = none → captureFixedWait o = 1000 := by
    intro o h
    simp only [captureFixedWait, h, Option.getD]
    decide
  refine ⟨base, ?_, ?_⟩
  · intro b h
    apply base
    simp [buildOpts, h]
  · intro b w hb hw
    apply base
    simp only [buildOpts, hb]
    rw [if_neg (by omega)]

/-- Witness for C10_default_wait: waitTime 20000 is dropped and the
fixed wait is the default 1000 ms. -/
theorem C10_witness :
    captureFixedWait (buildOpts { waitTime := some 20000 }) = 1000 :=
  C10_default_wait.2.2 { waitTime := some 20000 } 20000 rfl (by decide)

end Screenshotter
